import Mathlib

/-!
Shallow embedding of the Job Aligner AI front-end (src/App.tsx,
src/services/geminiService.ts, src/components) and proofs of the
specification claims about it.

The embedding models:
  * the three generation functions of the Gemini service layer
    (`generateAlignmentSummary`, `generateCoverLetter`, `refineResumeForATS`),
    with the outcome of the single outbound `generateContent` call passed in
    explicitly as a `GenOutcome` and the number of network calls made
    recorded in the result;
  * the App component's state and its handlers (`validateInputs`,
    `clearResults`, `handleSummarize`, `handleGenerateCoverLetter`,
    `handleRefineResume`, `handleClearResume`, `handleFileSelect`,
    `handleCopy`);
  * the PDF text extraction loop and the markdown-like renderer
    (`MarkdownRenderer`), including the JavaScript regular-expression
    behaviours it relies on (split on blank lines, the numbered-heading
    pattern, leading-bullet stripping).
-/

namespace JobAligner

/-- Whitespace as matched by the JavaScript regex class backslash-s and by
`String.prototype.trim` (restricted to the ASCII range, which is all the
modelled inputs use). -/
def isJsWs (c : Char) : Bool :=
  c = ' ' || c = '\t' || c = '\n' || c = '\r' || c = '\x0b' || c = '\x0c'

/-- JavaScript `String.prototype.trim`: drop whitespace from both ends. -/
def jsTrim (s : String) : String :=
  String.mk (((s.data.dropWhile isJsWs).reverse.dropWhile isJsWs).reverse)

/-- First index `≥ i` at which `pat` occurs in `cs`, scanning left to right
(the loop behind JavaScript `indexOf`/`includes`). -/
def indexOfFromAux (pat : List Char) : List Char → Nat → Option Nat
  | [], i => if pat = [] then some i else none
  | c :: tl, i =>
    if pat.isPrefixOf (c :: tl) then some i
    else indexOfFromAux pat tl (i + 1)

/-- JavaScript `s.indexOf(pat, start)`, as an `Option` (none for -1). -/
def indexOfFrom (s pat : String) (start : Nat) : Option Nat :=
  (indexOfFromAux pat.data (s.data.drop start) start)

/-- JavaScript `s.includes(pat)`. -/
def jsIncludes (s pat : String) : Bool :=
  (indexOfFrom s pat 0).isSome

/-- JavaScript `s.substring(a, b)` for non-negative `a ≤ b`. -/
def jsSubstring (s : String) (a b : Nat) : String :=
  String.mk ((s.data.take b).drop a)

/-- JavaScript `s.substring(a)` (to the end of the string). -/
def jsSubstringFrom (s : String) (a : Nat) : String :=
  String.mk (s.data.drop a)

/-- JavaScript `s.endsWith(suffix)`. -/
def jsEndsWith (s suffix : String) : Bool :=
  suffix.data.isSuffixOf s.data

/-- JavaScript `s.startsWith(pat)`. -/
def jsStartsWith (s pat : String) : Bool :=
  pat.data.isPrefixOf s.data

/-- Worker for the single-character string split. -/
def splitOnCharAux (c : Char) : List Char → List Char → List String
  | [], acc => [String.mk acc.reverse]
  | x :: xs, acc =>
    if x = c then String.mk acc.reverse :: splitOnCharAux c xs []
    else splitOnCharAux c xs (x :: acc)

/-- JavaScript `s.split(sep)` for a one-character separator. -/
def splitOnChar (c : Char) (s : String) : List String :=
  splitOnCharAux c s.data []

/-! ## Gemini service layer (src/services/geminiService.ts) -/

/-- The JavaScript guard `if (!API_KEY)`: `process.env.API_KEY` is either
absent (`none`) or a string, and the guard fires when it is absent or
empty (both are falsy). -/
def keyMissing : Option String → Bool
  | none => true
  | some s => s.isEmpty

/-- Error message thrown by each service function when the key is missing. -/
def geminiConfigErrorMsg : String :=
  "Gemini API Key is not configured. Please set the API_KEY environment variable."

/-- Error message thrown inside the try block when `response.text` is falsy. -/
def emptyResponseMsg : String :=
  "Received an empty response from the AI."

/-- Error message raised by the catch blocks for credential failures. -/
def invalidKeyErrorMsg : String :=
  "Invalid or missing Gemini API Key. Please check your configuration."

/-- Fallback error of `generateAlignmentSummary`'s catch block. -/
def summaryFailureMsg : String :=
  "Failed to generate summary from AI. Please try again later."

/-- Fallback error of `generateCoverLetter`'s catch block. -/
def coverLetterFailureMsg : String :=
  "Failed to generate cover letter from AI. Please try again later."

/-- Fallback error of `refineResumeForATS`'s catch block. -/
def refineFailureMsg : String :=
  "Failed to refine resume from AI. Please try again later."

/-- Outcome of the single awaited `ai.models.generateContent` call: either it
resolves with a response whose `text` field may be absent, or it throws an
exception carrying a message. -/
inductive GenOutcome where
  | resp (text : Option String)
  | exn (msg : String)
  deriving Repr, DecidableEq

/-- What a service function produces: the value returned or the message of
the error thrown, together with how many network calls were made. -/
structure GenResult where
  result : Except String String
  networkCalls : Nat
  deriving Repr

/-- The test of both catch blocks:
`error.message.includes("API_KEY_INVALID") || error.message.includes("API key")`. -/
def errorLooksLikeAuth (msg : String) : Bool :=
  jsIncludes msg "API_KEY_INVALID" || jsIncludes msg "API key"

/-- `generateAlignmentSummary` from src/services/geminiService.ts: throws the
configuration error before any call when the key is missing; otherwise makes
one `generateContent` call, throws on a falsy `response.text`, and maps any
exception of the try block through the catch block. -/
def generateAlignmentSummary (apiKey : Option String) (net : GenOutcome) : GenResult :=
  if keyMissing apiKey then
    { result := .error geminiConfigErrorMsg, networkCalls := 0 }
  else
    let attempt : Except String String :=
      match net with
      | .exn msg => .error msg
      | .resp t =>
        match t with
        | none => .error emptyResponseMsg
        | some txt => if txt.isEmpty then .error emptyResponseMsg else .ok txt
    match attempt with
    | .ok txt => { result := .ok txt, networkCalls := 1 }
    | .error msg =>
      { result := .error (if errorLooksLikeAuth msg then invalidKeyErrorMsg else summaryFailureMsg),
        networkCalls := 1 }

/-- `generateCoverLetter` from src/services/geminiService.ts; identical
control flow to `generateAlignmentSummary` with its own fallback message. -/
def generateCoverLetter (apiKey : Option String) (net : GenOutcome) : GenResult :=
  if keyMissing apiKey then
    { result := .error geminiConfigErrorMsg, networkCalls := 0 }
  else
    let attempt : Except String String :=
      match net with
      | .exn msg => .error msg
      | .resp t =>
        match t with
        | none => .error emptyResponseMsg
        | some txt => if txt.isEmpty then .error emptyResponseMsg else .ok txt
    match attempt with
    | .ok txt => { result := .ok txt, networkCalls := 1 }
    | .error msg =>
      { result := .error (if errorLooksLikeAuth msg then invalidKeyErrorMsg else coverLetterFailureMsg),
        networkCalls := 1 }

/-- `refineResumeForATS` from src/services/geminiService.ts; same control
flow, but the successful response text is returned trimmed
(`return text.trim()`). -/
def refineResumeForATS (apiKey : Option String) (net : GenOutcome) : GenResult :=
  if keyMissing apiKey then
    { result := .error geminiConfigErrorMsg, networkCalls := 0 }
  else
    let attempt : Except String String :=
      match net with
      | .exn msg => .error msg
      | .resp t =>
        match t with
        | none => .error emptyResponseMsg
        | some txt => if txt.isEmpty then .error emptyResponseMsg else .ok txt
    match attempt with
    | .ok txt => { result := .ok (jsTrim txt), networkCalls := 1 }
    | .error msg =>
      { result := .error (if errorLooksLikeAuth msg then invalidKeyErrorMsg else refineFailureMsg),
        networkCalls := 1 }

/-! ## App component state and handlers (src/App.tsx) -/

/-- The `activeAction` state values (excluding `null`). -/
inductive ActiveAction where
  | analyze
  | coverLetter
  | refineResume
  deriving Repr, DecidableEq

/-- The `useState` fields of the `App` component. -/
structure AppState where
  resume : String
  jobDescriptions : String
  summary : Option String
  coverLetter : Option String
  refinedResume : Option String
  error : Option String
  resumeError : Option String
  jobDescError : Option String
  isParsing : Bool
  resumeFileName : Option String
  activeAction : Option ActiveAction
  copySuccess : Bool
  deriving Repr

/-- The initial values passed to `useState`. -/
def initialState : AppState :=
  { resume := "", jobDescriptions := "", summary := none, coverLetter := none,
    refinedResume := none, error := none, resumeError := none, jobDescError := none,
    isParsing := false, resumeFileName := none, activeAction := none,
    copySuccess := false }

/-- `clearResults`: null out all three result fields. -/
def clearResults (s : AppState) : AppState :=
  { s with summary := none, coverLetter := none, refinedResume := none }

/-- `validateInputs`: sets or clears the two per-field error messages and
returns whether both fields are non-blank. -/
def validateInputs (s : AppState) : Bool × AppState :=
  let (v₁, s₁) :=
    if (jsTrim s.resume).isEmpty then
      (false, { s with resumeError := some "Resume content cannot be empty." })
    else
      (true, { s with resumeError := none })
  if (jsTrim s₁.jobDescriptions).isEmpty then
    (false, { s₁ with jobDescError := some "Job description(s) cannot be empty." })
  else
    (v₁, { s₁ with jobDescError := none })

/-- `handleSummarize`: validate, mark the action active, clear results, await
`generateAlignmentSummary`, store the result or the error message, and reset
the active action.  Also returns the number of network calls made. -/
def handleSummarize (apiKey : Option String) (net : GenOutcome) (s : AppState) :
    AppState × Nat :=
  let (ok, s) := validateInputs s
  if !ok then (s, 0)
  else
    let s := { s with activeAction := some .analyze, error := none }
    let s := clearResults s
    let g := generateAlignmentSummary apiKey net
    let s :=
      match g.result with
      | .ok r => { s with summary := some r }
      | .error msg => { s with error := some msg, summary := none }
    ({ s with activeAction := none }, g.networkCalls)

/-- `handleGenerateCoverLetter`: same shape as `handleSummarize` for the
cover-letter action. -/
def handleGenerateCoverLetter (apiKey : Option String) (net : GenOutcome) (s : AppState) :
    AppState × Nat :=
  let (ok, s) := validateInputs s
  if !ok then (s, 0)
  else
    let s := { s with activeAction := some .coverLetter, error := none }
    let s := clearResults s
    let g := generateCoverLetter apiKey net
    let s :=
      match g.result with
      | .ok r => { s with coverLetter := some r }
      | .error msg => { s with error := some msg, coverLetter := none }
    ({ s with activeAction := none }, g.networkCalls)

/-- `handleRefineResume`: same shape as `handleSummarize` for the
refine-for-ATS action. -/
def handleRefineResume (apiKey : Option String) (net : GenOutcome) (s : AppState) :
    AppState × Nat :=
  let (ok, s) := validateInputs s
  if !ok then (s, 0)
  else
    let s := { s with activeAction := some .refineResume, error := none }
    let s := clearResults s
    let g := refineResumeForATS apiKey net
    let s :=
      match g.result with
      | .ok r => { s with refinedResume := some r }
      | .error msg => { s with error := some msg, refinedResume := none }
    ({ s with activeAction := none }, g.networkCalls)

/-! ## File selection and PDF extraction (src/App.tsx, handleFileSelect) -/

/-- The PDF extraction loop: for each page, the `str` of every text item is
joined with single spaces and a newline is appended, accumulating in order
into `fullText`. -/
def extractPdfText (pages : List (List String)) : String :=
  pages.foldl (fun acc toks => acc ++ (String.intercalate " " toks ++ "\n")) ""

/-- An uploaded file as `handleFileSelect` observes it: its name, its
declared MIME type, and what the two parsing libraries would produce from
its bytes (pdf.js text items per page; mammoth raw text). -/
structure FileInput where
  name : String
  mimeType : String
  pdfPages : List (List String)
  docxRawText : String
  deriving Repr

/-- Message of the error thrown for files that are neither PDF nor docx. -/
def unsupportedFileMsg : String :=
  "Unsupported file type. Please upload a PDF or .docx file."

/-- `handleClearResume`: reset resume text, file name and field error. -/
def handleClearResume (s : AppState) : AppState :=
  { s with resume := "", resumeFileName := none, resumeError := none }

/-- `handleFileSelect`: set the parsing flag and reset the resume fields;
extract text via pdf.js when `file.type === 'application/pdf'`, via mammoth
when the name ends in `.docx`, otherwise throw the unsupported-file error,
which the catch block turns into a page-level error and a cleared resume;
finally clear the parsing flag. -/
def handleFileSelect (file : FileInput) (s : AppState) : AppState :=
  let s := { s with isParsing := true, error := none, resumeError := none,
                    resume := "", resumeFileName := none }
  let s :=
    if file.mimeType = "application/pdf" then
      { s with resume := extractPdfText file.pdfPages, resumeFileName := some file.name }
    else if jsEndsWith file.name ".docx" then
      { s with resume := file.docxRawText, resumeFileName := some file.name }
    else
      handleClearResume
        { s with error := some ("Failed to parse file. " ++ unsupportedFileMsg) }
  { s with isParsing := false }

/-! ## Clipboard copy and the copy-button label (src/App.tsx, handleCopy) -/

/-- `handleCopy`'s fulfilled branch: set `copySuccess` and schedule a timer;
the returned number is the delay in milliseconds passed to `setTimeout`. -/
def handleCopySuccess (s : AppState) : AppState × Nat :=
  ({ s with copySuccess := true }, 2000)

/-- The scheduled timer callback: `setCopySuccess(false)`. -/
def copyTimerFire (s : AppState) : AppState :=
  { s with copySuccess := false }

/-- The copy button's label: `copySuccess ? 'Copied!' : 'Copy'`. -/
def copyButtonLabel (s : AppState) : String :=
  if s.copySuccess then "Copied!" else "Copy"

/-! ## MarkdownRenderer (src/App.tsx)

The renderer splits its input with the JavaScript regex split
`text.split(/\n\s*\n/)` and classifies each section into one of four
shapes.  The regex behaviours (leftmost match, greedy quantifiers with
backtracking, lazy dot-star, `.` not matching line terminators) are encoded
directly. -/

/-- Index of the last occurrence of `c` in a list, if any. -/
def lastIdxOf (c : Char) : List Char → Option Nat
  | [] => none
  | x :: xs =>
    match lastIdxOf c xs with
    | some i => some (i + 1)
    | none => if x = c then some 0 else none

/-- Worker for the regex split on blank lines.  A match of the separator
regex starts at a newline and, by greedy backtracking, extends through the
last newline of the maximal whitespace run that follows it.  The fuel is the
length of the input, which bounds the number of steps. -/
def splitSectionsAux : Nat → List Char → List Char → List String
  | 0, rest, acc => [String.mk (acc.reverse ++ rest)]
  | _ + 1, [], acc => [String.mk acc.reverse]
  | fuel + 1, c :: cs, acc =>
    if c = '\n' then
      match lastIdxOf '\n' (cs.takeWhile isJsWs) with
      | some t => String.mk acc.reverse :: splitSectionsAux fuel (cs.drop (t + 1)) []
      | none => splitSectionsAux fuel cs (c :: acc)
    else splitSectionsAux fuel cs (c :: acc)

/-- `text.split(/\n\s*\n/)`: the sections of the renderer. -/
def splitSections (text : String) : List String :=
  splitSectionsAux text.data.length text.data []

/-- `item.replace(/^\*\s*/, '')`: strip one leading star and the whitespace
run after it, when present. -/
def stripBullet (item : String) : String :=
  match item.data with
  | '*' :: rest => String.mk (rest.dropWhile isJsWs)
  | _ => item

/-- The lazy tail of the numbered-heading regex: matches one instance of
the fragment made of a lazy dot-star, an optional star and a colon,
returning its length.  At each position the engine first tries to stop the
lazy dot-star, preferring to consume a star before the colon; `.` does not
match line terminators. -/
def matchDotLazy : List Char → Option Nat
  | [] => none
  | c :: cs =>
    if c = '*' && cs.head? = some ':' then some 2
    else if c = ':' then some 1
    else if c = '\n' || c = '\r' then none
    else (matchDotLazy cs).map (· + 1)

/-- The optional star before the lazy dot-star: greedy, so taking the star
is tried before skipping it. -/
def matchStarDot (cs : List Char) : Option Nat :=
  match cs with
  | '*' :: rest =>
    match matchDotLazy rest with
    | some n => some (n + 1)
    | none => matchDotLazy cs
  | _ => matchDotLazy cs

/-- The whitespace run after the dot in the numbered-heading regex: greedy
with backtracking, so longer runs are tried first. -/
def matchWsStarDot : List Char → Option Nat
  | [] => none
  | c :: cs =>
    if isJsWs c then
      match matchWsStarDot cs with
      | some n => some (n + 1)
      | none => matchStarDot (c :: cs)
    else matchStarDot (c :: cs)

/-- `section.match(/^(\d+\.\s*\*?.*?\*?:\s*)/)`: the captured group (equal
to the whole match) when the anchored numbered-heading regex matches. -/
def matchNumberedHeading (s : String) : Option String :=
  let cs := s.data
  let ds := cs.takeWhile Char.isDigit
  if ds.isEmpty then none
  else
    match cs.drop ds.length with
    | '.' :: rest =>
      match matchWsStarDot rest with
      | some n =>
        let tailWs := ((rest.drop n).takeWhile isJsWs).length
        some (String.mk (cs.take (ds.length + 1 + n + tailWs)))
      | none => none
    | _ => none

/-- The four shapes a section renders to: a bold-marked heading with body
text, an unordered list, a numbered heading with trailing content, or a
plain paragraph. -/
inductive Block where
  | heading (title content : String)
  | bulletList (items : List String)
  | numbered (head rest : String)
  | para (text : String)
  deriving Repr, DecidableEq

/-- The per-section branch of `MarkdownRenderer`.  The bold branch looks up
the closing star pair from index 2; when `indexOf` returns -1 JavaScript's
`substring(2, -1)` clamps and swaps to `substring(0, 2)` and the content
starts at index 1. -/
def renderSection (sec : String) : Block :=
  if jsStartsWith sec "**" && jsIncludes sec "**" then
    match indexOfFrom sec "**" 2 with
    | some t => .heading (jsSubstring sec 2 t) (jsTrim (jsSubstringFrom sec (t + 2)))
    | none => .heading (jsSubstring sec 0 2) (jsTrim (jsSubstringFrom sec 1))
  else if jsStartsWith sec "* " then
    .bulletList ((splitOnChar '\n' sec).map stripBullet)
  else
    match matchNumberedHeading sec with
    | some h => .numbered h (jsTrim (jsSubstringFrom sec h.length))
    | none => .para sec

/-- `MarkdownRenderer`: split on blank lines, classify each section. -/
def markdownRender (text : String) : List Block :=
  (splitSections text).map renderSection

/-! ## Helper lemmas -/

theorem string_append_assoc (a b c : String) : a ++ b ++ c = a ++ (b ++ c) := by
  cases a; cases b; cases c
  show String.mk _ = String.mk _
  simp [String.append, List.append_assoc]

theorem string_foldl_append (l : List String) (acc : String) :
    l.foldl (fun r s => r ++ s) acc = acc ++ l.foldl (fun r s => r ++ s) "" := by
  induction l generalizing acc with
  | nil => simp [String.append_empty]
  | cons x xs ih =>
    rw [List.foldl_cons, List.foldl_cons, ih (acc ++ x), ih ("" ++ x),
        String.empty_append, string_append_assoc]

theorem string_join_cons (x : String) (l : List String) :
    String.join (x :: l) = x ++ String.join l := by
  show (x :: l).foldl (fun r s => r ++ s) "" = _
  rw [List.foldl_cons, String.empty_append, string_foldl_append]
  rfl

theorem foldl_append_eq_join (f : α → String) (l : List α) (acc : String) :
    l.foldl (fun a t => a ++ f t) acc = acc ++ String.join (l.map f) := by
  induction l generalizing acc with
  | nil => simp [String.join, String.append_empty]
  | cons x xs ih =>
    rw [List.foldl_cons, ih, List.map_cons, string_join_cons, string_append_assoc]

/-! ## Claim theorems -/

/-- C1: if the resume or the job-description text is blank (empty or only
whitespace), each of the three action handlers makes zero network calls and
records the per-field validation message for each blank field. -/
theorem blank_input_blocks_actions (apiKey : Option String) (net : GenOutcome)
    (s : AppState)
    (h : (jsTrim s.resume).isEmpty = true ∨ (jsTrim s.jobDescriptions).isEmpty = true) :
    ((handleSummarize apiKey net s).2 = 0 ∧
     (handleGenerateCoverLetter apiKey net s).2 = 0 ∧
     (handleRefineResume apiKey net s).2 = 0) ∧
    ((jsTrim s.resume).isEmpty = true →
      (handleSummarize apiKey net s).1.resumeError = some "Resume content cannot be empty." ∧
      (handleGenerateCoverLetter apiKey net s).1.resumeError = some "Resume content cannot be empty." ∧
      (handleRefineResume apiKey net s).1.resumeError = some "Resume content cannot be empty.") ∧
    ((jsTrim s.jobDescriptions).isEmpty = true →
      (handleSummarize apiKey net s).1.jobDescError = some "Job description(s) cannot be empty." ∧
      (handleGenerateCoverLetter apiKey net s).1.jobDescError = some "Job description(s) cannot be empty." ∧
      (handleRefineResume apiKey net s).1.jobDescError = some "Job description(s) cannot be empty.") := by
  cases hr : (jsTrim s.resume).isEmpty <;>
    cases hj : (jsTrim s.jobDescriptions).isEmpty <;>
    simp_all [handleSummarize, handleGenerateCoverLetter, handleRefineResume, validateInputs]

/-- Witness for C1 at a whitespace-only resume and empty job description. -/
theorem blank_input_blocks_actions_witness :
    ((jsTrim "  ").isEmpty = true ∨ (jsTrim "").isEmpty = true) ∧
    (handleSummarize (some "key") (.resp (some "out"))
        { initialState with resume := "  ", jobDescriptions := "" }).2 = 0 ∧
    (handleSummarize (some "key") (.resp (some "out"))
        { initialState with resume := "  ", jobDescriptions := "" }).1.resumeError =
      some "Resume content cannot be empty." :=
  have h := blank_input_blocks_actions (some "key") (.resp (some "out"))
    { initialState with resume := "  ", jobDescriptions := "" } (Or.inl (by decide))
  ⟨Or.inl (by decide), h.1.1, (h.2.1 (by decide)).1⟩

/-- C2: with a missing (absent or empty) API key, each of the three service
functions throws the configuration-error message and makes no network
call. -/
theorem missing_key_blocks_generation (apiKey : Option String) (net : GenOutcome)
    (h : keyMissing apiKey = true) :
    generateAlignmentSummary apiKey net =
      { result := .error geminiConfigErrorMsg, networkCalls := 0 } ∧
    generateCoverLetter apiKey net =
      { result := .error geminiConfigErrorMsg, networkCalls := 0 } ∧
    refineResumeForATS apiKey net =
      { result := .error geminiConfigErrorMsg, networkCalls := 0 } := by
  simp [generateAlignmentSummary, generateCoverLetter, refineResumeForATS, h]

/-- Witness for C2 at an absent key. -/
theorem missing_key_blocks_generation_witness :
    keyMissing none = true ∧
    generateAlignmentSummary none (.resp (some "out")) =
      { result := .error geminiConfigErrorMsg, networkCalls := 0 } ∧
    generateCoverLetter none (.resp (some "out")) =
      { result := .error geminiConfigErrorMsg, networkCalls := 0 } ∧
    refineResumeForATS none (.resp (some "out")) =
      { result := .error geminiConfigErrorMsg, networkCalls := 0 } :=
  ⟨rfl, missing_key_blocks_generation none (.resp (some "out")) rfl⟩

/-- C3: PDF extraction is the concatenation, in page order, of each page's
tokens joined by single spaces followed by a newline; in particular the
two-page example yields exactly the claimed string. -/
theorem extractPdfText_spec (pages : List (List String)) :
    extractPdfText pages =
      String.join (pages.map (fun toks => String.intercalate " " toks ++ "\n")) ∧
    extractPdfText [["Hello", "World"], ["Foo", "Bar"]] = "Hello World\nFoo Bar\n" := by
  constructor
  · have := foldl_append_eq_join
      (fun toks : List String => String.intercalate " " toks ++ "\n") pages ""
    simpa [extractPdfText, String.empty_append] using this
  · rfl

/-- C4 counterexample: a file whose name has the `.pdf` extension but whose
declared MIME type is not `application/pdf` is rejected with the
unsupported-file-type error and the resume field stays unpopulated, so
acceptance is not decided by the `.pdf` extension. -/
theorem pdf_extension_file_rejected :
    jsEndsWith "resume.pdf" ".pdf" = true ∧
    (handleFileSelect
        { name := "resume.pdf", mimeType := "text/plain",
          pdfPages := [["Hello", "World"]], docxRawText := "raw" }
        initialState).error = some ("Failed to parse file. " ++ unsupportedFileMsg) ∧
    (handleFileSelect
        { name := "resume.pdf", mimeType := "text/plain",
          pdfPages := [["Hello", "World"]], docxRawText := "raw" }
        initialState).resume = "" ∧
    (handleFileSelect
        { name := "resume.pdf", mimeType := "text/plain",
          pdfPages := [["Hello", "World"]], docxRawText := "raw" }
        initialState).resumeFileName = none := by
  refine ⟨rfl, ?_, ?_, ?_⟩ <;> rfl

/-- C4 (amended): file selection accepts exactly the files whose declared
MIME type is `application/pdf` or whose name ends with `.docx`; any other
file yields the unsupported-file-type error and leaves the resume text and
file name reset. -/
theorem file_select_accept_condition (f : FileInput) (s : AppState) :
    (¬ (f.mimeType = "application/pdf" ∨ jsEndsWith f.name ".docx" = true) →
      (handleFileSelect f s).error = some ("Failed to parse file. " ++ unsupportedFileMsg) ∧
      (handleFileSelect f s).resume = "" ∧
      (handleFileSelect f s).resumeFileName = none) ∧
    ((f.mimeType = "application/pdf" ∨ jsEndsWith f.name ".docx" = true) →
      (handleFileSelect f s).error = none ∧
      (handleFileSelect f s).resumeFileName = some f.name) := by
  by_cases hp : f.mimeType = "application/pdf" <;>
    cases hd : jsEndsWith f.name ".docx" <;>
    simp_all [handleFileSelect, handleClearResume]

/-- Witness for C4 (amended) at a rejected `.txt` file. -/
theorem file_select_accept_condition_witness :
    ¬ (("text/plain" : String) = "application/pdf" ∨ jsEndsWith "notes.txt" ".docx" = true) ∧
    (handleFileSelect
        { name := "notes.txt", mimeType := "text/plain",
          pdfPages := [], docxRawText := "raw" }
        initialState).error = some ("Failed to parse file. " ++ unsupportedFileMsg) ∧
    (handleFileSelect
        { name := "notes.txt", mimeType := "text/plain",
          pdfPages := [], docxRawText := "raw" }
        initialState).resume = "" ∧
    (handleFileSelect
        { name := "notes.txt", mimeType := "text/plain",
          pdfPages := [], docxRawText := "raw" }
        initialState).resumeFileName = none :=
  ⟨by decide,
   (file_select_accept_condition
      { name := "notes.txt", mimeType := "text/plain",
        pdfPages := [], docxRawText := "raw" }
      initialState).1 (by decide)⟩

/-- Number of non-null result fields in a state. -/
def resultCount (s : AppState) : Nat :=
  (if s.summary = none then 0 else 1) +
  (if s.coverLetter = none then 0 else 1) +
  (if s.refinedResume = none then 0 else 1)

/-- At most one of summary, cover letter and refined resume is non-null. -/
def atMostOneResult (s : AppState) : Prop :=
  resultCount s ≤ 1

instance (s : AppState) : Decidable (atMostOneResult s) :=
  inferInstanceAs (Decidable (resultCount s ≤ 1))

theorem validateInputs_snd_fields (s : AppState) :
    (validateInputs s).2.summary = s.summary ∧
    (validateInputs s).2.coverLetter = s.coverLetter ∧
    (validateInputs s).2.refinedResume = s.refinedResume := by
  unfold validateInputs
  cases hr : (jsTrim s.resume).isEmpty <;>
    cases hj : (jsTrim s.jobDescriptions).isEmpty <;> simp [hr, hj]

theorem handleSummarize_invalid (apiKey : Option String) (net : GenOutcome)
    (s : AppState) (h : (validateInputs s).1 = false) :
    handleSummarize apiKey net s = ((validateInputs s).2, 0) := by
  unfold handleSummarize
  rw [show validateInputs s = (false, (validateInputs s).2) by rw [← h]]
  rfl

theorem handleGenerateCoverLetter_invalid (apiKey : Option String) (net : GenOutcome)
    (s : AppState) (h : (validateInputs s).1 = false) :
    handleGenerateCoverLetter apiKey net s = ((validateInputs s).2, 0) := by
  unfold handleGenerateCoverLetter
  rw [show validateInputs s = (false, (validateInputs s).2) by rw [← h]]
  rfl

theorem handleRefineResume_invalid (apiKey : Option String) (net : GenOutcome)
    (s : AppState) (h : (validateInputs s).1 = false) :
    handleRefineResume apiKey net s = ((validateInputs s).2, 0) := by
  unfold handleRefineResume
  rw [show validateInputs s = (false, (validateInputs s).2) by rw [← h]]
  rfl

theorem handleSummarize_valid_fields (apiKey : Option String) (net : GenOutcome)
    (s : AppState) (h : (validateInputs s).1 = true) :
    (handleSummarize apiKey net s).1.coverLetter = none ∧
    (handleSummarize apiKey net s).1.refinedResume = none ∧
    (handleSummarize apiKey net s).2 = (generateAlignmentSummary apiKey net).networkCalls ∧
    ∀ m, (generateAlignmentSummary apiKey net).result = .error m →
      (handleSummarize apiKey net s).1.summary = none ∧
      (handleSummarize apiKey net s).1.error = some m := by
  unfold handleSummarize
  rw [show validateInputs s = (true, (validateInputs s).2) by rw [← h]]
  rcases hg : (generateAlignmentSummary apiKey net).result with r | m <;>
    simp [clearResults, hg]

theorem handleGenerateCoverLetter_valid_fields (apiKey : Option String) (net : GenOutcome)
    (s : AppState) (h : (validateInputs s).1 = true) :
    (handleGenerateCoverLetter apiKey net s).1.summary = none ∧
    (handleGenerateCoverLetter apiKey net s).1.refinedResume = none ∧
    (handleGenerateCoverLetter apiKey net s).2 = (generateCoverLetter apiKey net).networkCalls ∧
    ∀ m, (generateCoverLetter apiKey net).result = .error m →
      (handleGenerateCoverLetter apiKey net s).1.coverLetter = none ∧
      (handleGenerateCoverLetter apiKey net s).1.error = some m := by
  unfold handleGenerateCoverLetter
  rw [show validateInputs s = (true, (validateInputs s).2) by rw [← h]]
  rcases hg : (generateCoverLetter apiKey net).result with r | m <;>
    simp [clearResults, hg]

theorem handleRefineResume_valid_fields (apiKey : Option String) (net : GenOutcome)
    (s : AppState) (h : (validateInputs s).1 = true) :
    (handleRefineResume apiKey net s).1.summary = none ∧
    (handleRefineResume apiKey net s).1.coverLetter = none ∧
    (handleRefineResume apiKey net s).2 = (refineResumeForATS apiKey net).networkCalls ∧
    ∀ m, (refineResumeForATS apiKey net).result = .error m →
      (handleRefineResume apiKey net s).1.refinedResume = none ∧
      (handleRefineResume apiKey net s).1.error = some m := by
  unfold handleRefineResume
  rw [show validateInputs s = (true, (validateInputs s).2) by rw [← h]]
  rcases hg : (refineResumeForATS apiKey net).result with r | m <;>
    simp [clearResults, hg]

theorem atMostOne_of_two_none (s : AppState)
    (h₁ : s.coverLetter = none ∨ s.summary = none)
    (h₂ : s.refinedResume = none ∨ s.summary = none)
    (h₃ : s.coverLetter = none ∨ s.refinedResume = none) :
    atMostOneResult s := by
  unfold atMostOneResult resultCount
  rcases h₁ with h₁ | h₁ <;> rcases h₂ with h₂ | h₂ <;> rcases h₃ with h₃ | h₃ <;>
    simp [h₁, h₂, h₃] <;> split <;> omega

/-- C5: the initial state has no result; each of the three action handlers
preserves the at-most-one-result invariant; and whenever validation passes
(so the operation actually starts), each handler leaves the two result
fields of the other operations null. -/
theorem results_mutually_exclusive (apiKey : Option String) (net : GenOutcome)
    (s : AppState) (h : atMostOneResult s) :
    atMostOneResult initialState ∧
    atMostOneResult (handleSummarize apiKey net s).1 ∧
    atMostOneResult (handleGenerateCoverLetter apiKey net s).1 ∧
    atMostOneResult (handleRefineResume apiKey net s).1 ∧
    ((validateInputs s).1 = true →
      (handleSummarize apiKey net s).1.coverLetter = none ∧
      (handleSummarize apiKey net s).1.refinedResume = none ∧
      (handleGenerateCoverLetter apiKey net s).1.summary = none ∧
      (handleGenerateCoverLetter apiKey net s).1.refinedResume = none ∧
      (handleRefineResume apiKey net s).1.summary = none ∧
      (handleRefineResume apiKey net s).1.coverLetter = none) := by
  have hpres : atMostOneResult (validateInputs s).2 := by
    obtain ⟨e₁, e₂, e₃⟩ := validateInputs_snd_fields s
    unfold atMostOneResult resultCount
    rw [e₁, e₂, e₃]
    exact h
  cases hval : (validateInputs s).1 with
  | false =>
    refine ⟨by decide, ?_, ?_, ?_, by simp [hval]⟩ <;>
      simp [handleSummarize_invalid apiKey net s hval,
        handleGenerateCoverLetter_invalid apiKey net s hval,
        handleRefineResume_invalid apiKey net s hval, hpres]
  | true =>
    obtain ⟨a₁, a₂, -, -⟩ := handleSummarize_valid_fields apiKey net s hval
    obtain ⟨b₁, b₂, -, -⟩ := handleGenerateCoverLetter_valid_fields apiKey net s hval
    obtain ⟨c₁, c₂, -, -⟩ := handleRefineResume_valid_fields apiKey net s hval
    refine ⟨by decide, ?_, ?_, ?_, fun _ => ⟨a₁, a₂, b₁, b₂, c₁, c₂⟩⟩
    · exact atMostOne_of_two_none _ (Or.inl a₁) (Or.inl a₂) (Or.inl a₁)
    · exact atMostOne_of_two_none _ (Or.inr b₁) (Or.inr b₁) (Or.inr b₂)
    · exact atMostOne_of_two_none _ (Or.inl c₂) (Or.inr c₁) (Or.inl c₂)

/-- Witness for C5: from a state holding a previous summary, generating a
cover letter leaves only the cover-letter result non-null. -/
theorem results_mutually_exclusive_witness :
    atMostOneResult
      { initialState with resume := "cv", jobDescriptions := "jd", summary := some "old" } ∧
    atMostOneResult
      (handleGenerateCoverLetter (some "key") (.resp (some "letter"))
        { initialState with resume := "cv", jobDescriptions := "jd", summary := some "old" }).1 ∧
    (handleGenerateCoverLetter (some "key") (.resp (some "letter"))
        { initialState with resume := "cv", jobDescriptions := "jd", summary := some "old" }).1.summary = none :=
  have h := results_mutually_exclusive (some "key") (.resp (some "letter"))
    { initialState with resume := "cv", jobDescriptions := "jd", summary := some "old" }
    (by decide)
  ⟨by decide, h.2.2.1, (h.2.2.2.2 (by decide)).2.2.1⟩

theorem generateAlignmentSummary_error_msgs (apiKey : Option String) (net : GenOutcome)
    (hk : keyMissing apiKey = false) :
    ∀ m, (generateAlignmentSummary apiKey net).result = .error m →
      m = invalidKeyErrorMsg ∨ m = summaryFailureMsg := by
  intro m
  unfold generateAlignmentSummary
  rcases net with t | msg
  · rcases t with - | txt
    · cases ha : errorLooksLikeAuth emptyResponseMsg <;> simp [hk, ha] <;>
        rintro rfl <;> simp
    · cases he : txt.isEmpty <;>
        cases ha : errorLooksLikeAuth emptyResponseMsg <;> simp [hk, ha, he] <;>
        rintro rfl <;> simp
  · cases ha : errorLooksLikeAuth msg <;> simp [hk, ha] <;> rintro rfl <;> simp

theorem generateCoverLetter_error_msgs (apiKey : Option String) (net : GenOutcome)
    (hk : keyMissing apiKey = false) :
    ∀ m, (generateCoverLetter apiKey net).result = .error m →
      m = invalidKeyErrorMsg ∨ m = coverLetterFailureMsg := by
  intro m
  unfold generateCoverLetter
  rcases net with t | msg
  · rcases t with - | txt
    · cases ha : errorLooksLikeAuth emptyResponseMsg <;> simp [hk, ha] <;>
        rintro rfl <;> simp
    · cases he : txt.isEmpty <;>
        cases ha : errorLooksLikeAuth emptyResponseMsg <;> simp [hk, ha, he] <;>
        rintro rfl <;> simp
  · cases ha : errorLooksLikeAuth msg <;> simp [hk, ha] <;> rintro rfl <;> simp

theorem refineResumeForATS_error_msgs (apiKey : Option String) (net : GenOutcome)
    (hk : keyMissing apiKey = false) :
    ∀ m, (refineResumeForATS apiKey net).result = .error m →
      m = invalidKeyErrorMsg ∨ m = refineFailureMsg := by
  intro m
  unfold refineResumeForATS
  rcases net with t | msg
  · rcases t with - | txt
    · cases ha : errorLooksLikeAuth emptyResponseMsg <;> simp [hk, ha] <;>
        rintro rfl <;> simp
    · cases he : txt.isEmpty <;>
        cases ha : errorLooksLikeAuth emptyResponseMsg <;> simp [hk, ha, he] <;>
        rintro rfl <;> simp
  · cases ha : errorLooksLikeAuth msg <;> simp [hk, ha] <;> rintro rfl <;> simp

/-- C6: with the key configured, every failure of a generation function is
one of exactly two user-readable messages (the auth message or that
function's generic try-again-later message); an exception whose message
looks like a credential failure maps to the auth message; and when an
operation that actually started fails, the handler leaves its result field
null and stores the message as the page-level error. -/
theorem generation_failure_mapping (apiKey : Option String) (net : GenOutcome)
    (hk : keyMissing apiKey = false) :
    (∀ m, (generateAlignmentSummary apiKey net).result = .error m →
      (m = invalidKeyErrorMsg ∨ m = summaryFailureMsg) ∧
      ∀ s, (validateInputs s).1 = true →
        (handleSummarize apiKey net s).1.summary = none ∧
        (handleSummarize apiKey net s).1.error = some m) ∧
    (∀ m, (generateCoverLetter apiKey net).result = .error m →
      (m = invalidKeyErrorMsg ∨ m = coverLetterFailureMsg) ∧
      ∀ s, (validateInputs s).1 = true →
        (handleGenerateCoverLetter apiKey net s).1.coverLetter = none ∧
        (handleGenerateCoverLetter apiKey net s).1.error = some m) ∧
    (∀ m, (refineResumeForATS apiKey net).result = .error m →
      (m = invalidKeyErrorMsg ∨ m = refineFailureMsg) ∧
      ∀ s, (validateInputs s).1 = true →
        (handleRefineResume apiKey net s).1.refinedResume = none ∧
        (handleRefineResume apiKey net s).1.error = some m) ∧
    (∀ msg, net = .exn msg → errorLooksLikeAuth msg = true →
      (generateAlignmentSummary apiKey net).result = .error invalidKeyErrorMsg ∧
      (generateCoverLetter apiKey net).result = .error invalidKeyErrorMsg ∧
      (refineResumeForATS apiKey net).result = .error invalidKeyErrorMsg) := by
  refine ⟨fun m hm => ⟨generateAlignmentSummary_error_msgs apiKey net hk m hm,
      fun s hs => (handleSummarize_valid_fields apiKey net s hs).2.2.2 m hm⟩,
    fun m hm => ⟨generateCoverLetter_error_msgs apiKey net hk m hm,
      fun s hs => (handleGenerateCoverLetter_valid_fields apiKey net s hs).2.2.2 m hm⟩,
    fun m hm => ⟨refineResumeForATS_error_msgs apiKey net hk m hm,
      fun s hs => (handleRefineResume_valid_fields apiKey net s hs).2.2.2 m hm⟩,
    fun msg hnet ha => ?_⟩
  subst hnet
  simp [generateAlignmentSummary, generateCoverLetter, refineResumeForATS, hk, ha]

/-- Witness for C6 at an auth-flavoured exception and a valid state. -/
theorem generation_failure_mapping_witness :
    keyMissing (some "key") = false ∧
    (generateAlignmentSummary (some "key") (.exn "API_KEY_INVALID: denied")).result =
      .error invalidKeyErrorMsg ∧
    (handleSummarize (some "key") (.exn "API_KEY_INVALID: denied")
        { initialState with resume := "cv", jobDescriptions := "jd" }).1.summary = none ∧
    (handleSummarize (some "key") (.exn "API_KEY_INVALID: denied")
        { initialState with resume := "cv", jobDescriptions := "jd" }).1.error =
      some invalidKeyErrorMsg :=
  have h := generation_failure_mapping (some "key") (.exn "API_KEY_INVALID: denied") rfl
  have hres : (generateAlignmentSummary (some "key") (.exn "API_KEY_INVALID: denied")).result =
      .error invalidKeyErrorMsg := by rfl
  have hs := (h.1 invalidKeyErrorMsg hres).2
    { initialState with resume := "cv", jobDescriptions := "jd" } (by decide)
  ⟨rfl, hres, hs.1, hs.2⟩

/-- C7: with the key configured, a resolved response whose text field is
absent or empty is treated as an error by all three generation functions
(the thrown empty-response error is then mapped by the catch block to the
generic failure message). -/
theorem empty_response_is_error (apiKey : Option String) (t : Option String)
    (hk : keyMissing apiKey = false) (ht : t = none ∨ t = some "") :
    (generateAlignmentSummary apiKey (.resp t)).result = .error summaryFailureMsg ∧
    (generateCoverLetter apiKey (.resp t)).result = .error coverLetterFailureMsg ∧
    (refineResumeForATS apiKey (.resp t)).result = .error refineFailureMsg := by
  have ha : errorLooksLikeAuth emptyResponseMsg = false := by decide
  rcases ht with rfl | rfl <;>
    simp [generateAlignmentSummary, generateCoverLetter, refineResumeForATS,
      hk, ha, String.isEmpty]

/-- Witness for C7 at an absent text field. -/
theorem empty_response_is_error_witness :
    keyMissing (some "key") = false ∧
    (generateAlignmentSummary (some "key") (.resp none)).result = .error summaryFailureMsg ∧
    (generateCoverLetter (some "key") (.resp none)).result = .error coverLetterFailureMsg ∧
    (refineResumeForATS (some "key") (.resp none)).result = .error refineFailureMsg :=
  ⟨rfl, empty_response_is_error (some "key") none rfl (Or.inl rfl)⟩

/-- C8: the markdown renderer turns the bold-headed section into a heading
"Strengths" with body "You have good skills", and the starred section into
an unordered list with items "A" and "B". -/
theorem markdown_renderer_examples :
    markdownRender "**Strengths**\nYou have good skills" =
      [Block.heading "Strengths" "You have good skills"] ∧
    markdownRender "* A\n* B" = [Block.bulletList ["A", "B"]] := by
  constructor <;> rfl

/-- C9: on a successful copy the button label becomes "Copied!", the revert
timer is scheduled with a 2000 ms delay, and once it fires the label is the
default "Copy" again. -/
theorem copy_indicator_reverts (s t : AppState) :
    copyButtonLabel (handleCopySuccess s).1 = "Copied!" ∧
    (handleCopySuccess s).2 = 2000 ∧
    copyButtonLabel (copyTimerFire t) = "Copy" := by
  simp [copyButtonLabel, handleCopySuccess, copyTimerFire]

/-- C10: on a successful non-empty response, `refineResumeForATS` returns
the response text trimmed while `generateAlignmentSummary` and
`generateCoverLetter` return it unmodified. -/
theorem refine_trims_success_text (apiKey : Option String) (txt : String)
    (hk : keyMissing apiKey = false) (ht : txt.isEmpty = false) :
    (refineResumeForATS apiKey (.resp (some txt))).result = .ok (jsTrim txt) ∧
    (generateAlignmentSummary apiKey (.resp (some txt))).result = .ok txt ∧
    (generateCoverLetter apiKey (.resp (some txt))).result = .ok txt := by
  simp [refineResumeForATS, generateAlignmentSummary, generateCoverLetter, hk, ht]

/-- Witness for C10 at a response with surrounding whitespace, where the
trimmed and untrimmed results differ. -/
theorem refine_trims_success_text_witness :
    keyMissing (some "key") = false ∧
    ("  draft  ").isEmpty = false ∧
    jsTrim "  draft  " = "draft" ∧
    (refineResumeForATS (some "key") (.resp (some "  draft  "))).result = .ok (jsTrim "  draft  ") ∧
    (generateAlignmentSummary (some "key") (.resp (some "  draft  "))).result = .ok "  draft  " ∧
    (generateCoverLetter (some "key") (.resp (some "  draft  "))).result = .ok "  draft  " :=
  ⟨rfl, rfl, rfl, refine_trims_success_text (some "key") "  draft  " rfl rfl⟩

end JobAligner
